import Mathlib

/-!
Verification of the PsyLLM batch-pipeline scripts.

This file gives a shallow embedding of the four stage scripts
(`agent1_extract_information.py`, `agent2_conversations.py`,
`agent3_thinking_psy.py`, `agent4_filter.py`) and proves or refutes the
frozen specification claims about them.

Modelling conventions:
- JSON values produced by Python's `json.loads` are modelled by the
  inductive type `Json` below.  `json.loads` itself is an external
  library function, so the parsers are parameterised over an oracle
  `jparse : String → Option Json` (`none` models a raised
  `JSONDecodeError`).  Whenever a concrete oracle is used in a witness
  or counterexample it is chosen to agree with the real behaviour of
  `json.loads` on every string the modelled code feeds to it, and this
  is documented at the definition.
- Python dictionaries parsed from JSON are modelled as association
  lists `List (String × Json)`; `json.loads` already deduplicates keys
  (last occurrence wins), so lookup of the first occurrence in the
  modelled association list is faithful.
- A raised (and not locally caught) Python exception is modelled by
  `Option.none` / `Except.error` at the point where it escapes.
-/

/-- JSON values, the result type of a successful `json.loads`. -/
inductive Json where
  | null : Json
  | bool (b : Bool) : Json
  | num (n : Int) : Json
  | str (s : String) : Json
  | arr (xs : List Json) : Json
  | obj (kvs : List (String × Json)) : Json
deriving Repr

mutual

/-- Boolean equality test on JSON values (Python `==` on parsed values,
used where the modelled code tests membership in a set of values). -/
def jsonBeq : Json → Json → Bool
  | Json.null, Json.null => true
  | Json.bool a, Json.bool b => a = b
  | Json.num a, Json.num b => a = b
  | Json.str a, Json.str b => a = b
  | Json.arr xs, Json.arr ys => jsonListBeq xs ys
  | Json.obj xs, Json.obj ys => jsonKvsBeq xs ys
  | _, _ => false

/-- Elementwise equality of JSON arrays. -/
def jsonListBeq : List Json → List Json → Bool
  | [], [] => true
  | x :: xs, y :: ys => jsonBeq x y && jsonListBeq xs ys
  | _, _ => false

/-- Pairwise equality of JSON object entries. -/
def jsonKvsBeq : List (String × Json) → List (String × Json) → Bool
  | [], [] => true
  | (k, x) :: xs, (k', y) :: ys => (k = k') && jsonBeq x y && jsonKvsBeq xs ys
  | _, _ => false

end

/-- Lookup of a key in a parsed JSON object (Python `d[k]` / `d.get(k)`
on the dictionary level, before the `None`-vs-missing distinction). -/
def lookupKey (kvs : List (String × Json)) (k : String) : Option Json :=
  match kvs with
  | [] => none
  | (k', v) :: rest => if k' = k then some v else lookupKey rest k

/-! Python string primitives, modelled over the character list of a
string (Python string operations are character-based).  Lean's built-in
`String.trim` etc. are avoided because their byte-position internals do
not evaluate inside the kernel. -/

/-- Whitespace as stripped by Python's `str.strip()` (the common
whitespace characters). -/
def isWs (c : Char) : Bool := c = ' ' || c = '\n' || c = '\t' || c = '\r'

/-- Strip leading and trailing whitespace from a character list. -/
def trimChars (cs : List Char) : List Char :=
  ((cs.dropWhile isWs).reverse.dropWhile isWs).reverse

/-- Python `s.strip()`. -/
def pyStrip (s : String) : String := String.mk (trimChars s.data)

/-- Character-list version of the startswith test. -/
def listIsPre : List Char → List Char → Bool
  | [], _ => true
  | _ :: _, [] => false
  | a :: p', b :: s' => a = b && listIsPre p' s'

/-- Python `s.startswith(p)`. -/
def strStartsWith (s p : String) : Bool := listIsPre p.data s.data

/-- Python `s.endswith(p)`. -/
def strEndsWith (s p : String) : Bool := listIsPre p.data.reverse s.data.reverse

/-- Python `s[n:]`. -/
def strDrop (s : String) (n : Nat) : String := String.mk (s.data.drop n)

/-- Python `s[:-n]`. -/
def strDropRight (s : String) (n : Nat) : String := String.mk (s.data.take (s.data.length - n))

/-- Python `s.rstrip(",")`: remove all trailing commas. -/
def rstripCommas (s : String) : String :=
  String.mk ((s.data.reverse.dropWhile (fun c => c = ',')).reverse)

/-- Character-list version of Python `str.splitlines` before dropping
the trailing empty piece: split at every newline character. -/
def splitNl : List Char → List (List Char)
  | [] => [[]]
  | c :: cs =>
    match splitNl cs with
    | [] => [[]]
    | l :: ls => if c = '\n' then [] :: l :: ls else (c :: l) :: ls

/-- Python `s.splitlines()` (with `\n` terminators): like splitting on
newlines, except that a trailing empty piece is dropped. -/
def pySplitLines (s : String) : List String :=
  let r := splitNl s.data
  (match r.reverse with
   | [] :: rest => rest.reverse
   | _ => r).map String.mk

/-- Python `"\n".join(lines)`. -/
def joinLines : List String → String
  | [] => ""
  | [l] => l
  | l :: ls => l ++ "\n" ++ joinLines ls

/-- Character-list substring test (Python `sub in s` on strings). -/
def containsSub : List Char → List Char → Bool
  | [], sub => listIsPre sub []
  | c :: rest, sub => listIsPre sub (c :: rest) || containsSub rest sub

namespace Agent2

/-- Source: `agent2_conversations.py`, line 19. -/
def MAX_RETRIES : Nat := 3

/-- Source: `agent2_conversations.py`, lines 95–99.  The raw model text is
stripped, a leading ```` ```json ```` fence marker and a trailing
```` ``` ```` fence marker are removed (each followed by another strip). -/
def stripCodeFence (raw : String) : String :=
  let content := pyStrip raw
  let content := if strStartsWith content "```json" then pyStrip (strDrop content 7) else content
  if strEndsWith content "```" then pyStrip (strDropRight content 3) else content

/-- One attempt of the body of `inference_generate_conversation`
(source: `agent2_conversations.py`, lines 85–105): make one Inference
Gateway call (`respond k`, `none` modelling a transport/API failure at
attempt number `k`), strip code fences, `json.loads` the text, then take
`conv["conversation"]` (a `KeyError` on a missing key or a `TypeError`
on a non-dict both raise, i.e. yield `none`).  `some r` is the value
returned, `none` means the `try` block raised. -/
def attemptOnce (jparse : String → Option Json) (respond : Nat → Option String)
    (post_id : String) (k : Nat) : Option Json :=
  match respond k with
  | none => none
  | some raw =>
    let content := stripCodeFence raw
    match jparse content with
    | none => none
    | some conv =>
      match conv with
      | Json.obj kvs =>
        match lookupKey kvs "conversation" with
        | some c => some (Json.obj [("post_id", Json.str post_id), ("conversation", c)])
        | none => none
      | _ => none

/-- Source: `agent2_conversations.py`, lines 46–111.  The recursive
retry-wrapped inference call.  The second component of the result counts
the number of Inference Gateway invocations made (one per recursive
level).  `Except.error` models the `raise Exception(...)` after the
retries are exhausted. -/
def inference_generate_conversation (jparse : String → Option Json)
    (respond : Nat → Option String) (post_id : String) (retry_count : Nat) :
    Except String Json × Nat :=
  match attemptOnce jparse respond post_id retry_count with
  | some r => (Except.ok r, 1)
  | none =>
    if h : retry_count < MAX_RETRIES then
      let p := inference_generate_conversation jparse respond post_id (retry_count + 1)
      (p.1, p.2 + 1)
    else
      (Except.error "API request failed after retries", 1)
termination_by MAX_RETRIES - retry_count
decreasing_by omega

/-- Source: `agent2_conversations.py`, line 233 and 239.  An input record
of the conversation-generation stage (one NDJSON line of the previous
stage's output). -/
structure Rec2 where
  post_id : String
  info_by_round : List String
deriving DecidableEq, Repr

/-- Source: `agent2_conversations.py`, line 239.  The pending set computed
at load time: the input records whose identifier is not in the set of
identifiers loaded from the output.  The Python set `processed_ids` is
modelled as a list with membership. -/
def records_to_process (records : List Rec2) (processed_ids : List String) : List Rec2 :=
  records.filter (fun rec => !(processed_ids.contains rec.post_id))

/-- Number of Inference Gateway calls made for identifier `pid` during one
run: calls happen only inside `process_record` (line 120), which is invoked
exactly on the members of `records_to_process` (lines 258–260), and each
invocation makes `(inference_generate_conversation ...).2` calls. -/
def runGatewayCalls (jparse : String → Option Json) (respond : String → Nat → Option String)
    (records : List Rec2) (processed_ids : List String) (pid : String) : Nat :=
  ((records_to_process records processed_ids).filter (fun r => r.post_id == pid)).foldl
    (fun acc r => acc + (inference_generate_conversation jparse (respond r.post_id) r.post_id 0).2) 0

/-- Source: `agent2_conversations.py`, lines 265 and 279.  The checkpoint
merge of the loaded collection with the results completed so far is plain
list concatenation. -/
def combined_records (existing_records results : List Json) : List Json :=
  existing_records ++ results

end Agent2

/-- The `post_id` field of a loaded record (`rec["post_id"]`); `none` when
the record is not an object or lacks the key. -/
def recPostId (j : Json) : Option Json :=
  match j with
  | Json.obj kvs => lookupKey kvs "post_id"
  | _ => none

/-- Number of records in a collection carrying the identifier `pid`. -/
def idCount (recs : List Json) (pid : Json) : Nat :=
  recs.countP (fun r =>
    match recPostId r with
    | some v => jsonBeq v pid
    | none => false)

namespace Agent1

/-- The left-brace character, written via its code point. -/
def lbrace : Char := Char.ofNat 123

/-- The right-brace character, written via its code point. -/
def rbrace : Char := Char.ofNat 125

/-- Source: `agent1_extract_information.py`, lines 20 and 58.  The regex
`JSON_OBJ_RE` (a left brace, then any characters including newlines,
greedy, then a right brace) searched over `text`: it matches iff some
right brace occurs after the first left brace, and then spans from the
first left brace to the last right brace of the text. -/
def jsonObjSearch (text : String) : Option String :=
  let cs := text.toList
  match cs.findIdx? (fun c => c = lbrace) with
  | none => none
  | some i =>
    match cs.reverse.findIdx? (fun c => c = rbrace) with
    | none => none
    | some rj =>
      let j := cs.length - 1 - rj
      if i < j then some (String.mk ((cs.drop i).take (j - i + 1))) else none

/-- Source: `agent1_extract_information.py`, lines 50–54.  Strip the raw
model output, remove a leading ```` ```json ```` marker and a trailing
```` ``` ```` marker, stripping again after each removal. -/
def stripFence (output : String) : String :=
  let text := pyStrip output
  let text := if strStartsWith text "```json" then pyStrip (strDrop text 7) else text
  if strEndsWith text "```" then pyStrip (strDropRight text 3) else text

/-- Source: `agent1_extract_information.py`, lines 55–59.  The `data`
value computed by `extract_round_info`: strict parse of the fence-stripped
text; on failure, parse of the regex-extracted largest embedded object
(`none` models the uncaught exception when that inner parse fails); when
no embedded object exists, the empty dictionary. -/
def extract_round_info_data (jparse : String → Option Json) (output : String) : Option Json :=
  let text := stripFence output
  match jparse text with
  | some data => some data
  | none =>
    match jsonObjSearch text with
    | some m => jparse m
    | none => some (Json.obj [])

/-- Python `dict.get`: `none` both for a missing key and for a JSON
`null` value, since `json.loads` maps `null` to Python `None`. -/
def pyGet (kvs : List (String × Json)) (k : String) : Option Json :=
  match lookupKey kvs k with
  | some Json.null => none
  | some v => some v
  | none => none

/-- Source: `agent1_extract_information.py`, lines 48–60.  The full
`extract_round_info`: returns `data.get("rounds")` and
`data.get("info_by_round")`; `none` models a raised exception (failed
embedded parse, or `.get` on a non-dictionary). -/
def extract_round_info (jparse : String → Option Json) (output : String) :
    Option (Option Json × Option Json) :=
  match extract_round_info_data jparse output with
  | none => none
  | some (Json.obj kvs) => some (pyGet kvs "rounds", pyGet kvs "info_by_round")
  | some _ => none

/-- Source: `agent1_extract_information.py`, lines 76–91.  The prompt
built for one post's content. -/
def build_prompt (content : String) : String :=
  "You are a compassionate and experienced psychological counselor. \nAnalyze the following user post and simulate the planning process \nof a brief therapeutic conversation (1–3 rounds).\n\nPost content:\n[\"" ++ content ++ "\"]\n\nReturn your output strictly in this JSON format:\n\x7b\n  \"rounds\": number (1–3),\n  \"info_by_round\": [list of strings, each describing the focus of one round]\n\x7d"

/-- An input post of the theme-extraction stage. -/
structure Post1 where
  post_id : String
  content : String
  file : String
deriving DecidableEq, Repr

/-- An output line written by the theme-extraction stage
(source: `agent1_extract_information.py`, lines 111–116). -/
structure OutRec1 where
  post_id : String
  file : String
  rounds : Json
  info_by_round : Json

/-- The shared mutable state of the theme-extraction stage: the output
lines written so far and the set of processed identifiers (modelled as a
list with membership). -/
structure WState where
  outLines : List OutRec1
  processed : List String

/-- Source: `agent1_extract_information.py`, lines 99–122.  One worker
invocation on one post.  Returns the updated shared state and the number
of Inference Gateway calls made.  `respond` maps the prompt to the raw
model output (`none` modelling a raised API error, caught by the
worker's `except`); a `none` from `extract_round_info` models its raised
exception, also caught. -/
def worker (jparse : String → Option Json) (respond : String → Option String)
    (st : WState) (post : Post1) : WState × Nat :=
  if st.processed.contains post.post_id then (st, 0)
  else
    let prompt := build_prompt post.content
    match respond prompt with
    | none => (st, 1)
    | some out =>
      match extract_round_info jparse out with
      | none => (st, 1)
      | some (rounds, info) =>
        if rounds.isNone || info.isNone then (st, 1)
        else
          ({ outLines := st.outLines ++
               [{ post_id := post.post_id, file := post.file,
                  rounds := rounds.getD Json.null,
                  info_by_round := info.getD Json.null }],
             processed := st.processed ++ [post.post_id] }, 1)

end Agent1

/-- Primitive filesystem operations.  Writing a file with mode `"w"` is
`truncate` followed by a sequence of `append`s (one per buffered chunk of
the serialized text), so that a kill mid-write is a stop between
primitives.  `remove` models `os.remove` guarded by `os.path.exists`
(removing an absent path is a no-op), `rename` models `os.rename`. -/
inductive FsOp where
  | truncate (p : String)
  | append (p : String) (chunk : String)
  | remove (p : String)
  | rename (src dst : String)
deriving DecidableEq, Repr

/-- A filesystem state: contents by path, `none` when absent. -/
def FS : Type := String → Option String

/-- Effect of one primitive operation on the filesystem. -/
def fsStep (fs : FS) : FsOp → FS
  | FsOp.truncate p => fun q => if q = p then some "" else fs q
  | FsOp.append p c => fun q => if q = p then some ((fs p).getD "" ++ c) else fs q
  | FsOp.remove p => fun q => if q = p then none else fs q
  | FsOp.rename a b => fun q => if q = a then none else if q = b then fs a else fs q

/-- Run a sequence of primitive operations. -/
def fsRun (fs : FS) (ops : List FsOp) : FS :=
  ops.foldl fsStep fs

/-- The operations of `open(p, "w")` followed by writing the serialized
text in `chunks`. -/
def writeFileOps (p : String) (chunks : List String) : List FsOp :=
  FsOp.truncate p :: chunks.map (FsOp.append p)

/-- Concatenation of the buffered chunks: the full serialized text the
write produces. -/
def chunksJoin : List String → String
  | [] => ""
  | c :: cs => c ++ chunksJoin cs

/-- Whether an operation touches the path `p`. -/
def opTouches (op : FsOp) (p : String) : Bool :=
  match op with
  | FsOp.truncate q => q = p
  | FsOp.append q _ => q = p
  | FsOp.remove q => q = p
  | FsOp.rename a b => a = p || b = p

/-- The write-to-temporary-then-atomically-swap shape claimed for every
checkpoint flush: the operations write a file at a temporary path
distinct from the final path and end by removing the final path and
renaming the temporary over it. -/
def usesTempThenRename (ops : List FsOp) (final : String) : Prop :=
  ∃ temp chunks, temp ≠ final ∧
    ops = writeFileOps temp chunks ++ [FsOp.remove final, FsOp.rename temp final]

namespace Agent2

/-- Source: `agent2_conversations.py`, lines 192–203 (`save_progress`).
The serialization produced by `json.dump(records, f, ...)` is abstracted
as the chunk list `chunks` (its concatenation is the serialized
collection).  The function writes the chunks to `output_path + ".temp"`,
then (the paths being distinct) removes the final path if present and
renames the temporary onto it.  The `os.makedirs` call only affects
directories, which the path-to-content filesystem model does not
track. -/
def save_progress_ops (output_path : String) (chunks : List String) : List FsOp :=
  let temp_path := output_path ++ ".temp"
  writeFileOps temp_path chunks ++
    (if output_path ≠ temp_path then [FsOp.remove output_path, FsOp.rename temp_path output_path]
     else [])

end Agent2

namespace Agent3

/-- Source: `agent3_thinking_psy.py`, lines 60–63 (`write_json_file`),
used for the periodic checkpoint at lines 143–145 and the final save at
lines 150–151: it opens the final path itself with mode `"w"` and writes
the serialization there, with no temporary path and no rename. -/
def write_json_file_ops (filename : String) (chunks : List String) : List FsOp :=
  writeFileOps filename chunks

end Agent3

/-- A filesystem with a single complete collection at `out.json`
(concrete test data). -/
def fsC3 : FS := fun q => if q = "out.json" then some "[]" else none

/-- Update the element at one position of a list, leaving every other
element in place (Python's in-place `l[n] = ...` / mutation of the dict
held at position `n`). -/
def listUpd {α : Type} : List α → Nat → (α → α) → List α
  | [], _, _ => []
  | x :: xs, 0, f => f x :: xs
  | x :: xs, n + 1, f => x :: listUpd xs n f

namespace Agent3

/-- A turn of a conversation in the turn-level reply stage.  The empty
string models a missing or empty field: Python's scheduling test uses
truthiness (`not conv.get("counselor_content")`, `conv.get("patient")`),
which identifies missing, `None` and `""`.  `round` stands for the
remaining payload fields a turn carries. -/
structure Turn where
  round : Nat
  patient : String
  counselor_content : String
  counselor_think : String
deriving DecidableEq, Repr

instance : Inhabited Turn := ⟨⟨0, "", "", ""⟩⟩

/-- A post of the turn-level reply stage. -/
structure Post3 where
  post_id : String
  conversation : List Turn
deriving DecidableEq, Repr

instance : Inhabited Post3 := ⟨⟨"", []⟩⟩

/-- Source: `agent3_thinking_psy.py`, lines 81–93.  The scheduled tasks:
for each post index `i` and turn index `j` in order, the task
`(i, j, patient text)` is scheduled exactly when the turn carries no
completed counselor response and has a patient text. -/
def tasks (posts : List Post3) : List (Nat × Nat × String) :=
  (List.range posts.length).flatMap (fun i =>
    let conv := (posts.getD i default).conversation
    (List.range conv.length).filterMap (fun j =>
      let c := conv.getD j default
      if c.counselor_content = "" ∧ c.patient ≠ "" then some (i, j, c.patient) else none))

/-- Source: `agent3_thinking_psy.py`, lines 136–139.  A completed task
writes the reply and the reasoning text into the two counselor fields of
its own target turn, in place. -/
def applyResult (posts : List Post3) (i j : Nat) (reply think : String) : List Post3 :=
  listUpd posts i (fun post =>
    { post with conversation := listUpd post.conversation j (fun c =>
        { c with counselor_content := reply, counselor_think := think }) })

end Agent3

/-- Concrete posts for the turn-immutability claim: one post whose first
turn already carries a completed response and whose second turn is
pending. -/
def c8Posts : List Agent3.Post3 :=
  [{ post_id := "p1",
     conversation := [
       { round := 1, patient := "hello", counselor_content := "done", counselor_think := "t1" },
       { round := 2, patient := "again", counselor_content := "", counselor_think := "" }] }]

namespace Agent2

/-- Source: `agent2_conversations.py`, lines 95–101.  The parse part of
the conversation-generation adapter applied to one raw response text:
code-fence strip, then strict `json.loads`; there is no further
fallback, a failure raises into the retry path (`none`). -/
def parseResponse (jparse : String → Option Json) (raw : String) : Option Json :=
  jparse (stripCodeFence raw)

end Agent2

namespace Agent4

/-- Source: `agent4_filter.py`, lines 67–77.  The filter adapter's fence
strip: strip the text; if it starts with three backticks, drop the first
line and keep the following lines up to (excluding) the first line whose
strip starts with three backticks, join them with newlines and strip
again. -/
def stripMarkdownFence (raw : String) : String :=
  let result_text := pyStrip raw
  if strStartsWith result_text "```" then
    let lines := pySplitLines result_text
    let content_lines := (lines.drop 1).takeWhile
      (fun line => !(strStartsWith (pyStrip line) "```"))
    pyStrip (joinLines content_lines)
  else result_text

/-- Python `k in result` on a parsed JSON value: key membership for an
object, element equality for an array, substring test for a string, and
a raised `TypeError` (`none`) for the other value kinds. -/
def pyIn (k : String) (j : Json) : Option Bool :=
  match j with
  | Json.obj kvs => some (kvs.any (fun kv => kv.1 == k))
  | Json.arr xs => some (xs.any (fun x => jsonBeq x (Json.str k)))
  | Json.str s => some (containsSub s.data k.data)
  | _ => none

/-- Source: `agent4_filter.py`, line 82: the validation
`all(k in result for k in ("keep", "issues", "reason"))`, with Python's
short-circuiting and with a `TypeError` (`none`) escaping from the
membership test on an int/bool/null. -/
def checkKeys (result : Json) : Option Bool :=
  match pyIn "keep" result with
  | none => none
  | some false => some false
  | some true =>
    match pyIn "issues" result with
    | none => none
    | some false => some false
    | some true => pyIn "reason" result

/-- Source: `agent4_filter.py`, lines 87–92.  The designated reject
result built by the fallback handler (its `reason` interpolates the
exception text and the raw output; the model keeps the raw output
part). -/
def rejectResult (result_text : String) : Json :=
  Json.obj [("keep", Json.bool false), ("issues", Json.arr []),
    ("reason", Json.str ("Invalid model response | Raw output: " ++ result_text))]

/-- Source: `agent4_filter.py`, lines 16–92 (the response handling of
`inference_with_deepseek_v3`, given the raw response text of the
Gateway call): fence-strip, strict `json.loads`, validate the three
required keys, and on any parse/validation failure return the designated
reject result instead of raising. -/
def inference_with_deepseek_v3 (jparse : String → Option Json) (raw : String) : Json :=
  let result_text := stripMarkdownFence raw
  match jparse result_text with
  | none => rejectResult result_text
  | some result =>
    match checkKeys result with
    | some true => result
    | _ => rejectResult result_text

/-- Python `result["post_id"] = v` on a parsed dict: overwrite the value
in place if the key exists, else append the new entry. -/
def setKey (kvs : List (String × Json)) (k : String) (v : Json) : List (String × Json) :=
  if kvs.any (fun kv => kv.1 == k) then
    kvs.map (fun kv => if kv.1 == k then (k, v) else kv)
  else kvs ++ [(k, v)]

/-- Source: `agent4_filter.py`, lines 119–124.  One iteration of the
filtering loop for one post: run the inference on the serialized post,
then execute `result["post_id"] = post_id` — an item assignment that
raises an uncaught `TypeError` (`none`, aborting the whole run) when the
returned result is not a dict. -/
def mainStep (jparse : String → Option Json) (post_id : String) (resp : String) : Option Json :=
  match inference_with_deepseek_v3 jparse resp with
  | Json.obj kvs => some (Json.obj (setKey kvs "post_id" (Json.str post_id)))
  | _ => none

end Agent4

/-- Python file iteration over the raw text, line by line (the loader's
`f.seek(0); for line in f`).  File iteration yields no trailing empty
line; splitting at every newline adds one, which the loop's empty-line
skip makes equivalent. -/
def fileLines (raw : String) : List String := (splitNl raw.data).map String.mk

/-- Python `set.add` on the modelled identifier set (kept as a list in
insertion order, deduplicated). -/
def pySetAdd (ids : List Json) (v : Json) : List Json :=
  if ids.any (fun x => jsonBeq x v) then ids else ids ++ [v]

namespace Agent2

/-- Source: `agent2_conversations.py`, lines 173–184.  The NDJSON
fallback loop of `load_processed_records`: each line is stripped and its
trailing commas removed; empty and bracket lines are skipped; an
unparsable line is skipped with a warning; a parsed record is appended
and then its `post_id` is added to the set — and when that lookup raises
(`KeyError` on a missing key, `TypeError` on a non-dict), the exception
escapes to the outer handler, which returns the records and identifiers
gathered so far (the record itself already appended). -/
def lineFold (jparse : String → Option Json) :
    List String → List Json → List Json → List Json × List Json
  | [], recs, ids => (recs, ids)
  | l :: rest, recs, ids =>
    let line := rstripCommas (pyStrip l)
    if line = "" ∨ line = "[" ∨ line = "]" then lineFold jparse rest recs ids
    else
      match jparse line with
      | none => lineFold jparse rest recs ids
      | some record =>
        match recPostId record with
        | some v => lineFold jparse rest (recs ++ [record]) (pySetAdd ids v)
        | none => (recs ++ [record], ids)

/-- Source: `agent2_conversations.py`, line 168.  The identifier set
comprehension `{rec["post_id"] for rec in records}`, evaluated left to
right; `none` models the raised `KeyError`/`TypeError` when a record is
not a dict with the key. -/
def collectIdsFrom (acc : List Json) : List Json → Option (List Json)
  | [] => some acc
  | r :: rest =>
    match recPostId r with
    | none => none
    | some v => collectIdsFrom (pySetAdd acc v) rest

/-- Source: `agent2_conversations.py`, lines 146–189
(`load_processed_records`).  When the recovery artifact
`output_path + ".temp"` exists, the function reads from it instead of
the main output path.  A missing file yields the empty state.  Content
starting with `[` is first parsed whole (a value whose parse succeeds on
such content is an array under `json.loads`, so a non-array success is
folded into the failure branch, which falls back to the line loop); a
failure of the identifier comprehension returns the parsed records with
an empty identifier set via the outer handler. -/
def load_processed_records (jparse : String → Option Json) (fs : FS) (output_path : String) :
    List Json × List Json :=
  let path := if (fs (output_path ++ ".temp")).isSome then output_path ++ ".temp" else output_path
  match fs path with
  | none => ([], [])
  | some raw =>
    let content := pyStrip raw
    if strStartsWith content "[" then
      match jparse content with
      | some (Json.arr recs) =>
        match collectIdsFrom [] recs with
        | some ids => (recs, ids)
        | none => (recs, [])
      | _ => lineFold jparse (fileLines raw) [] []
    else lineFold jparse (fileLines raw) [] []

end Agent2

/-- A filesystem holding both a recovery artifact and a distinct main
output file (concrete test data). -/
def c9fsBoth : FS := fun q =>
  if q = "out.json.temp" then some "x"
  else if q = "out.json" then some "MAIN" else none

/-- A filesystem holding only the recovery artifact (concrete test
data). -/
def c9fsTempOnly : FS := fun q => if q = "out.json.temp" then some "x" else none

/-- A `json.loads` oracle mapping the empty JSON object text to the
empty object, as the real `json.loads` does. -/
def c10jparse : String → Option Json :=
  fun s => if s = "\x7b\x7d" then some (Json.obj []) else none

/-- A response oracle whose answer is always the empty JSON object
text. -/
def c10respond : String → Option String := fun _ => some "\x7b\x7d"

/-- Modelled from the spec: the single "lenient structured-response
parser" of design note 9, with the documented fallback chain — strict
parse, then parse of the fence-stripped text, then parse of the largest
embedded JSON object, and only then reject.  Stated from the spec's
words for comparison with the stage adapters. -/
def specLenientParse (jparse : String → Option Json) (s : String) : Option Json :=
  match jparse s with
  | some v => some v
  | none =>
    match jparse (Agent2.stripCodeFence s) with
    | some v => some v
    | none =>
      match Agent1.jsonObjSearch s with
      | some m => jparse m
      | none => none

/-! Model of the round-robin client rotation and its thread-safety
(claims about `get_client`).  The rotation body is
`c := clients[client_index]; client_index := (client_index + 1) % len(clients)`
in both stages; they differ in locking. -/

/-- Atomic actions performed by one `get_client` call on the shared
rotation state: acquire/release the lock, read the shared index, write
the advanced index. -/
inductive RotAct where
  | acq : RotAct
  | rel : RotAct
  | readIdx : RotAct
  | writeIdx : RotAct
deriving DecidableEq, Repr

/-- Source: `agent1_extract_information.py`, lines 26–31.  `get_client`
reads the shared `client_index` and writes the advanced value with no
lock around either access (the module's `lock` is not used there). -/
def agent1_get_client_acts : List RotAct := [RotAct.readIdx, RotAct.writeIdx]

/-- Source: `agent3_thinking_psy.py`, lines 105–111.  `get_client`
acquires `client_lock`, reads the index, writes the advanced value and
releases the lock (the `with`-block covers both accesses). -/
def agent3_get_client_acts : List RotAct :=
  [RotAct.acq, RotAct.readIdx, RotAct.writeIdx, RotAct.rel]

/-- Whether every index access in an action trace occurs while the lock
is held (`d` counts currently held acquisitions). -/
def guardedFrom : Nat → List RotAct → Bool
  | _, [] => true
  | d, RotAct.acq :: rest => guardedFrom (d + 1) rest
  | d, RotAct.rel :: rest => guardedFrom (d - 1) rest
  | d, RotAct.readIdx :: rest => decide (0 < d) && guardedFrom d rest
  | d, RotAct.writeIdx :: rest => decide (0 < d) && guardedFrom d rest

/-- The shared index is mutated only under the lock. -/
def guarded (acts : List RotAct) : Bool := guardedFrom 0 acts

/-- A configuration of two workers rotating over two clients: each
worker's program counter, the lock owner (0 = free), the shared index,
and each worker's local copy of the index read. -/
structure RotCfg where
  pc0 : Fin 5
  pc1 : Fin 5
  owner : Fin 3
  idx : Fin 2
  reg0 : Fin 2
  reg1 : Fin 2
deriving DecidableEq, Fintype

/-- One step of worker 0 running the lock-guarded rotation
(program counter 0: acquire — a no-op while the lock is held elsewhere;
1: read the index; 2: write the advanced index modulo the number of
clients; 3: release; 4: done). -/
def stepLockedT0 (c : RotCfg) : RotCfg :=
  if c.pc0.val = 0 then (if c.owner.val = 0 then { c with owner := 1, pc0 := 1 } else c)
  else if c.pc0.val = 1 then { c with reg0 := c.idx, pc0 := 2 }
  else if c.pc0.val = 2 then { c with idx := ⟨(c.reg0.val + 1) % 2, by omega⟩, pc0 := 3 }
  else if c.pc0.val = 3 then { c with owner := 0, pc0 := 4 }
  else c

/-- One step of worker 1 running the lock-guarded rotation. -/
def stepLockedT1 (c : RotCfg) : RotCfg :=
  if c.pc1.val = 0 then (if c.owner.val = 0 then { c with owner := 2, pc1 := 1 } else c)
  else if c.pc1.val = 1 then { c with reg1 := c.idx, pc1 := 2 }
  else if c.pc1.val = 2 then { c with idx := ⟨(c.reg1.val + 1) % 2, by omega⟩, pc1 := 3 }
  else if c.pc1.val = 3 then { c with owner := 0, pc1 := 4 }
  else c

/-- Scheduler step for the locked rotation: `t` names the worker that
moves. -/
def stepLocked (t : Bool) (c : RotCfg) : RotCfg :=
  if t then stepLockedT1 c else stepLockedT0 c

/-- Run a schedule (an arbitrary interleaving) of the locked rotation. -/
def runLocked (sched : List Bool) (c : RotCfg) : RotCfg :=
  sched.foldl (fun c t => stepLocked t c) c

/-- Both workers at the start, lock free, index 0. -/
def initCfg : RotCfg := { pc0 := 0, pc1 := 0, owner := 0, idx := 0, reg0 := 0, reg1 := 0 }

/-- Invariant of the locked rotation: lock ownership matches the
critical sections, the index equals the number of completed writes
modulo the client count, and a worker about to write holds a fresh copy
of the index. -/
def lockedInv (c : RotCfg) : Prop :=
  (c.owner.val = 1 ↔ 1 ≤ c.pc0.val ∧ c.pc0.val ≤ 3) ∧
  (c.owner.val = 2 ↔ 1 ≤ c.pc1.val ∧ c.pc1.val ≤ 3) ∧
  c.idx.val = ((if 3 ≤ c.pc0.val then 1 else 0) + (if 3 ≤ c.pc1.val then 1 else 0)) % 2 ∧
  (c.pc0.val = 2 → c.reg0 = c.idx) ∧
  (c.pc1.val = 2 → c.reg1 = c.idx)

instance (c : RotCfg) : Decidable (lockedInv c) := by
  unfold lockedInv
  infer_instance

/-- One step of worker 0 running agent1's unguarded rotation
(program counter 0: read the index; 1: write the advanced index;
2: done — no lock actions exist in its trace). -/
def stepUnlockedT0 (c : RotCfg) : RotCfg :=
  if c.pc0.val = 0 then { c with reg0 := c.idx, pc0 := 1 }
  else if c.pc0.val = 1 then { c with idx := ⟨(c.reg0.val + 1) % 2, by omega⟩, pc0 := 2 }
  else c

/-- One step of worker 1 running agent1's unguarded rotation. -/
def stepUnlockedT1 (c : RotCfg) : RotCfg :=
  if c.pc1.val = 0 then { c with reg1 := c.idx, pc1 := 1 }
  else if c.pc1.val = 1 then { c with idx := ⟨(c.reg1.val + 1) % 2, by omega⟩, pc1 := 2 }
  else c

/-- Scheduler step for the unguarded rotation. -/
def stepUnlocked (t : Bool) (c : RotCfg) : RotCfg :=
  if t then stepUnlockedT1 c else stepUnlockedT0 c

/-- Run a schedule of the unguarded rotation. -/
def runUnlocked (sched : List Bool) (c : RotCfg) : RotCfg :=
  sched.foldl (fun c t => stepUnlocked t c) c

/-- The embedded JSON object inside the C5 counterexample response. -/
def c5val : Json := Json.obj [("a", Json.num 1)]

/-- A raw response text that is not itself valid JSON but contains an
embedded JSON object. -/
def c5text : String := "xx \x7b\"a\": 1\x7d yy"

/-- A `json.loads` oracle for the C5 counterexample, agreeing with the
real `json.loads` on every string the adapters feed to it on input
`c5text`: the full text (also after fence stripping, which leaves it
unchanged) is not valid JSON, while the embedded object parses. -/
def c5jparse : String → Option Json :=
  fun s => if s = "\x7b\"a\": 1\x7d" then some c5val else none

/-- A well-formed filter verdict value (concrete test data). -/
def c5valKeep : Json :=
  Json.obj [("keep", Json.bool true), ("issues", Json.arr []), ("reason", Json.str "ok")]

/-- The serialization of `c5valKeep`, used as a clean fence-free
response text. -/
def c5textKeep : String := "\x7b\"keep\": true, \"issues\": [], \"reason\": \"ok\"\x7d"

/-- A `json.loads` oracle agreeing with the real `json.loads` on the
strings fed to it on input `c5textKeep`: that text parses to
`c5valKeep`. -/
def c5jparseKeep : String → Option Json :=
  fun s => if s = c5textKeep then some c5valKeep else none

/-- The C6 failing model response: a valid JSON array whose elements are
the three required key names. -/
def c6resp : String := "[\"keep\", \"issues\", \"reason\"]"

/-- A `json.loads` oracle agreeing with the real `json.loads` on the
strings fed to it on input `c6resp`: that text parses to the string
array. -/
def c6jparse : String → Option Json :=
  fun s => if s = c6resp then
    some (Json.arr [Json.str "keep", Json.str "issues", Json.str "reason"])
  else none

/-- A `json.loads` oracle for runs in which no response text ever parses;
consistent with the real `json.loads` whenever no response is received at
all (it is then never called). -/
def jparseNone : String → Option Json := fun _ => none

/-- A response oracle modelling a run in which every Inference Gateway
call fails at the transport level. -/
def respondFail : Nat → Option String := fun _ => none

/-- A loaded record with identifier `p1` (concrete test data). -/
def exRecOld : Json := Json.obj [("post_id", Json.str "p1"), ("conversation", Json.arr [])]

/-- A freshly produced result that also carries identifier `p1`
(concrete test data). -/
def exRecNew : Json := Json.obj [("post_id", Json.str "p1"), ("conversation", Json.arr [Json.null])]

/-- A freshly produced result carrying identifier `p2` (concrete test
data). -/
def exRecOther : Json := Json.obj [("post_id", Json.str "p2"), ("conversation", Json.arr [])]

/-- Concrete input collection for the pending-set claim. -/
def c2Records : List Agent2.Rec2 := [{ post_id := "p1", info_by_round := ["a"] },
  { post_id := "p2", info_by_round := ["b"] }]

/-- Concrete already-done identifier set for the pending-set claim. -/
def c2Done : List String := ["p1"]

/-! Theorems. -/

/-- Helper: the number of Gateway calls made by the retry-wrapped
inference operation, started at `retry_count = rc`, is at most
`MAX_RETRIES - rc + 1`. -/
theorem igc_calls_le (jparse : String → Option Json) (respond : Nat → Option String)
    (pid : String) : ∀ fuel rc, Agent2.MAX_RETRIES - rc ≤ fuel →
    (Agent2.inference_generate_conversation jparse respond pid rc).2 ≤
      Agent2.MAX_RETRIES - rc + 1 := by
  intro fuel
  induction fuel with
  | zero =>
    intro rc h
    rw [Agent2.inference_generate_conversation]
    have hrc : ¬ rc < Agent2.MAX_RETRIES := by omega
    split
    · simp
    · simp [hrc]
  | succ n ih =>
    intro rc h
    rw [Agent2.inference_generate_conversation]
    split
    · simp
    · split
      · have := ih (rc + 1) (by omega)
        simp only []
        omega
      · simp

/-- Helper: when every attempt fails, the retry-wrapped inference
operation started at `retry_count = rc` raises after exactly
`MAX_RETRIES - rc + 1` Gateway calls. -/
theorem igc_all_fail (jparse : String → Option Json) (respond : Nat → Option String)
    (pid : String)
    (hfail : ∀ k, Agent2.attemptOnce jparse respond pid k = none) :
    ∀ fuel rc, Agent2.MAX_RETRIES - rc ≤ fuel →
    Agent2.inference_generate_conversation jparse respond pid rc =
      (Except.error "API request failed after retries", Agent2.MAX_RETRIES - rc + 1) := by
  intro fuel
  induction fuel with
  | zero =>
    intro rc h
    rw [Agent2.inference_generate_conversation]
    have hrc : ¬ rc < Agent2.MAX_RETRIES := by omega
    simp [hfail, hrc]
    omega
  | succ n ih =>
    intro rc h
    rw [Agent2.inference_generate_conversation]
    simp only [hfail]
    split
    · rw [ih (rc + 1) (by omega)]
      have : Agent2.MAX_RETRIES - (rc + 1) + 1 + 1 = Agent2.MAX_RETRIES - rc + 1 := by
        rename_i hlt
        omega
      simp [this]
    · rename_i hge
      have : Agent2.MAX_RETRIES - rc = 0 := by omega
      simp [this]

/-- Claim C1 as stated is false on the code: in a run where every
attempt fails, `inference_generate_conversation` makes
`MAX_RETRIES + 1 = 4` Inference Gateway calls before raising, which is
more than `MAX_RETRIES = 3`. -/
theorem C1_counterexample :
    (Agent2.inference_generate_conversation jparseNone respondFail "p1" 0).2 = 4 ∧
    Agent2.MAX_RETRIES = 3 ∧
    ¬ ((Agent2.inference_generate_conversation jparseNone respondFail "p1" 0).2 ≤
        Agent2.MAX_RETRIES) ∧
    (Agent2.inference_generate_conversation jparseNone respondFail "p1" 0).1 =
      Except.error "API request failed after retries" := by
  have h := igc_all_fail jparseNone respondFail "p1" (fun _ => rfl)
      Agent2.MAX_RETRIES 0 (by omega)
  rw [h]
  refine ⟨rfl, rfl, by decide, rfl⟩

/-- Claim C1, amended: the retry-wrapped inference operation makes at
most `MAX_RETRIES + 1` Gateway calls per record per run (one initial
attempt plus up to `MAX_RETRIES` retries), and if every attempt fails it
raises (`ExhaustedRetries`) after exactly `MAX_RETRIES + 1` consecutive
failures. -/
theorem C1_retry_bound :
    (∀ (jparse : String → Option Json) (respond : Nat → Option String) (pid : String),
      (Agent2.inference_generate_conversation jparse respond pid 0).2 ≤
        Agent2.MAX_RETRIES + 1) ∧
    (∀ (jparse : String → Option Json) (respond : Nat → Option String) (pid : String),
      (∀ k, Agent2.attemptOnce jparse respond pid k = none) →
      Agent2.inference_generate_conversation jparse respond pid 0 =
        (Except.error "API request failed after retries", Agent2.MAX_RETRIES + 1)) := by
  constructor
  · intro jparse respond pid
    have h := igc_calls_le jparse respond pid Agent2.MAX_RETRIES 0 (by omega)
    omega
  · intro jparse respond pid hfail
    have h := igc_all_fail jparse respond pid hfail Agent2.MAX_RETRIES 0 (by omega)
    rw [h]
    rfl

/-- Witness for `C1_retry_bound` at a concrete all-failing run. -/
theorem C1_retry_bound_witness :
    (Agent2.inference_generate_conversation jparseNone respondFail "p1" 0).2 ≤
      Agent2.MAX_RETRIES + 1 ∧
    Agent2.inference_generate_conversation jparseNone respondFail "p1" 0 =
      (Except.error "API request failed after retries", Agent2.MAX_RETRIES + 1) :=
  ⟨C1_retry_bound.1 jparseNone respondFail "p1",
   C1_retry_bound.2 jparseNone respondFail "p1" (fun _ => rfl)⟩

/-- Helper: a string-valued JSON value is `jsonBeq`-equal exactly to
itself. -/
theorem jsonBeq_str_iff (s : String) (j : Json) :
    jsonBeq (Json.str s) j = true ↔ j = Json.str s := by
  cases j <;> simp [jsonBeq, eq_comm]

/-- Helper: a singleton collection mentions any identifier at most
once. -/
theorem idCount_singleton_le (r : Json) (pid : Json) : idCount [r] pid ≤ 1 := by
  simp only [idCount, List.countP_cons, List.countP_nil]
  split <;> omega

/-- Claim C2: the pending set computed at load time is exactly the input
records whose identifier is not among the loaded output's identifiers, in
input order; a record whose identifier is already present has the
Inference Gateway invoked zero times, both in the conversation-generation
stage (`records_to_process`) and in the theme-extraction stage's worker
early return. -/
theorem C2_pending_exact :
    (∀ (records : List Agent2.Rec2) (processed_ids : List String) (r : Agent2.Rec2),
       r ∈ Agent2.records_to_process records processed_ids ↔
         r ∈ records ∧ r.post_id ∉ processed_ids) ∧
    (∀ (records : List Agent2.Rec2) (processed_ids : List String),
       List.Sublist (Agent2.records_to_process records processed_ids) records) ∧
    (∀ (jparse : String → Option Json) (respond : String → Nat → Option String)
       (records : List Agent2.Rec2) (processed_ids : List String) (pid : String),
       pid ∈ processed_ids →
       Agent2.runGatewayCalls jparse respond records processed_ids pid = 0) ∧
    (∀ (jparse : String → Option Json) (respond : String → Option String)
       (st : Agent1.WState) (post : Agent1.Post1),
       st.processed.contains post.post_id = true →
       Agent1.worker jparse respond st post = (st, 0)) := by
  refine ⟨?_, ?_, ?_, ?_⟩
  · intro records processed_ids r
    simp [Agent2.records_to_process, List.mem_filter]
  · intro records processed_ids
    exact List.filter_sublist records
  · intro jparse respond records processed_ids pid hmem
    have hnil : (Agent2.records_to_process records processed_ids).filter
        (fun r => r.post_id == pid) = [] := by
      rw [List.filter_eq_nil_iff]
      intro r hr
      simp only [Agent2.records_to_process] at hr
      have h2 := (List.mem_filter.mp hr).2
      simp only [beq_iff_eq]
      intro heq
      rw [heq] at h2
      simp only [List.contains] at h2
      rw [List.elem_eq_true_of_mem hmem] at h2
      simp at h2
    rw [Agent2.runGatewayCalls, hnil]
    rfl
  · intro jparse respond st post h
    rw [Agent1.worker, h]
    rfl

/-- Witness for `C2_pending_exact` on concrete data: with input records
`p1, p2` and `p1` already done, `p2` is pending, the pending list is a
subsequence of the input, `p1` gets zero Gateway calls in the
conversation-generation run, and the theme-extraction worker returns
without calling the Gateway on an already-processed post. -/
theorem C2_pending_exact_witness :
    (({ post_id := "p2", info_by_round := ["b"] } : Agent2.Rec2) ∈
        Agent2.records_to_process c2Records c2Done ↔
      ({ post_id := "p2", info_by_round := ["b"] } : Agent2.Rec2) ∈ c2Records ∧
        ("p2" : String) ∉ c2Done) ∧
    List.Sublist (Agent2.records_to_process c2Records c2Done) c2Records ∧
    Agent2.runGatewayCalls jparseNone (fun _ => respondFail) c2Records c2Done "p1" = 0 ∧
    Agent1.worker jparseNone (fun _ => none)
      { outLines := [], processed := ["p1"] } { post_id := "p1", content := "c", file := "f" } =
      ({ outLines := [], processed := ["p1"] }, 0) :=
  ⟨C2_pending_exact.1 c2Records c2Done _,
   C2_pending_exact.2.1 c2Records c2Done,
   C2_pending_exact.2.2.1 jparseNone (fun _ => respondFail) c2Records c2Done "p1"
     (by simp [c2Done]),
   C2_pending_exact.2.2.2 jparseNone (fun _ => none) _ _ (by rfl)⟩

/-- Claim C4 as stated is false on the code: the checkpoint merge is
plain concatenation, so when a new result carries an identifier already
present in the existing collection, that identifier appears twice in the
flushed collection (and the stale entry is not overwritten). -/
theorem C4_counterexample :
    idCount (Agent2.combined_records [exRecOld] [exRecNew]) (Json.str "p1") = 2 ∧
    ¬ (idCount (Agent2.combined_records [exRecOld] [exRecNew]) (Json.str "p1") ≤ 1) := by
  have h : idCount (Agent2.combined_records [exRecOld] [exRecNew]) (Json.str "p1") = 2 := by
    simp [idCount, Agent2.combined_records, exRecOld, exRecNew, recPostId, lookupKey,
      jsonBeq, List.countP_cons]
  exact ⟨h, by omega⟩

/-- Claim C4, amended: the checkpoint merge is plain list concatenation
`existing ++ results` with no deduplication and no overwrite-on-conflict;
provided the existing collection and the new results each mention any
identifier at most once and share no identifier (which the pending filter
ensures within a run over distinct input identifiers), every identifier
appears at most once in the flushed collection. -/
theorem C4_merge_dedup (existing results : List Json)
    (hex : ∀ pid, idCount existing pid ≤ 1)
    (hres : ∀ pid, idCount results pid ≤ 1)
    (hdisj : ∀ pid, idCount existing pid = 0 ∨ idCount results pid = 0) :
    ∀ pid, idCount (Agent2.combined_records existing results) pid ≤ 1 := by
  intro pid
  have hsum : idCount (Agent2.combined_records existing results) pid
      = idCount existing pid + idCount results pid := by
    simp [idCount, Agent2.combined_records, List.countP_append]
  rcases hdisj pid with h | h
  · have := hres pid
    omega
  · have := hex pid
    omega

/-- Witness for `C4_merge_dedup`: merging `[p1-record]` with
`[p2-record]` leaves every identifier, in particular `p1`, mentioned at
most once. -/
theorem C4_merge_dedup_witness :
    idCount (Agent2.combined_records [exRecOld] [exRecOther]) (Json.str "p1") ≤ 1 :=
  C4_merge_dedup [exRecOld] [exRecOther]
    (fun pid => idCount_singleton_le _ _)
    (fun pid => idCount_singleton_le _ _)
    (fun pid => by
      by_cases h : pid = Json.str "p1"
      · subst h
        right
        simp [idCount, exRecOther, recPostId, lookupKey, jsonBeq, List.countP_cons]
      · left
        simp only [idCount, List.countP_cons, List.countP_nil, recPostId, exRecOld, lookupKey]
        have : jsonBeq (Json.str "p1") pid = false := by
          rcases hb : jsonBeq (Json.str "p1") pid with _ | _
          · rfl
          · exact absurd ((jsonBeq_str_iff _ _).mp hb) h
        simp [this])
    (Json.str "p1")

/-- Helper: running concatenated operation lists composes. -/
theorem fsRun_append (fs : FS) (a b : List FsOp) :
    fsRun fs (a ++ b) = fsRun (fsRun fs a) b := by
  simp [fsRun, List.foldl_append]

/-- Helper: operations that do not touch a path leave its content
unchanged. -/
theorem fsRun_untouched (p : String) : ∀ (ops : List FsOp) (fs : FS),
    (∀ op ∈ ops, opTouches op p = false) → fsRun fs ops p = fs p := by
  intro ops
  induction ops with
  | nil => intro fs _; rfl
  | cons op rest ih =>
    intro fs h
    have hop := h op (List.mem_cons_self op rest)
    have hrest : ∀ o ∈ rest, opTouches o p = false := fun o ho => h o (List.mem_cons_of_mem _ ho)
    have hstep : fsStep fs op p = fs p := by
      cases op with
      | truncate q =>
        simp [fsStep, opTouches] at hop ⊢
        simp [Ne.symm hop]
      | append q c =>
        simp [fsStep, opTouches] at hop ⊢
        simp [Ne.symm hop]
      | remove q =>
        simp [fsStep, opTouches] at hop ⊢
        simp [Ne.symm hop]
      | rename a b =>
        simp [fsStep, opTouches] at hop ⊢
        simp [Ne.symm hop.1, Ne.symm hop.2]
    calc fsRun fs (op :: rest) p = fsRun (fsStep fs op) rest p := by
          simp [fsRun]
      _ = fsStep fs op p := ih (fsStep fs op) hrest
      _ = fs p := hstep

/-- Helper: every operation of a plain file write touches only the
written path. -/
theorem writeFileOps_touches (q p : String) (chunks : List String) (h : q ≠ p) :
    ∀ op ∈ writeFileOps p chunks, opTouches op q = false := by
  intro op hop
  rcases List.mem_cons.mp hop with h1 | h1
  · subst h1
    simp [opTouches, Ne.symm h]
  · obtain ⟨c, _, rfl⟩ := List.mem_map.mp h1
    simp [opTouches, Ne.symm h]

/-- Helper: appending the chunks to a present file concatenates them to
its content. -/
theorem fsRun_appendChunks (p : String) : ∀ (chunks : List String) (fs : FS) (s : String),
    fs p = some s →
    fsRun fs (chunks.map (FsOp.append p)) p = some (s ++ chunksJoin chunks) := by
  intro chunks
  induction chunks with
  | nil =>
    intro fs s h
    simpa [fsRun, chunksJoin] using h
  | cons c cs ih =>
    intro fs s h
    have h1 : fsStep fs (FsOp.append p c) p = some (s ++ c) := by
      simp [fsStep, h]
    have h2 := ih (fsStep fs (FsOp.append p c)) (s ++ c) h1
    calc fsRun fs ((c :: cs).map (FsOp.append p)) p
        = fsRun (fsStep fs (FsOp.append p c)) (cs.map (FsOp.append p)) p := by
          simp [fsRun]
      _ = some ((s ++ c) ++ chunksJoin cs) := h2
      _ = some (s ++ chunksJoin (c :: cs)) := by
          simp [chunksJoin, String.append_assoc]

/-- Helper: a full file write leaves the concatenated chunks at the
written path. -/
theorem fsRun_writeFileOps (p : String) (chunks : List String) (fs : FS) :
    fsRun fs (writeFileOps p chunks) p = some (chunksJoin chunks) := by
  have h1 : fsStep fs (FsOp.truncate p) p = some "" := by simp [fsStep]
  have h2 := fsRun_appendChunks p chunks (fsStep fs (FsOp.truncate p)) "" h1
  calc fsRun fs (writeFileOps p chunks) p
      = fsRun (fsStep fs (FsOp.truncate p)) (chunks.map (FsOp.append p)) p := by
        simp [fsRun, writeFileOps]
    _ = some ("" ++ chunksJoin chunks) := h2
    _ = some (chunksJoin chunks) := by simp

/-- Helper: decomposition of a list-prefix of a concatenation. -/
theorem prefixSplit {α : Type} : ∀ (a l b : List α), l <+: a ++ b →
    l <+: a ∨ ∃ l₂, l = a ++ l₂ ∧ l₂ <+: b := by
  intro a
  induction a with
  | nil =>
    intro l b h
    right
    exact ⟨l, rfl, by simpa using h⟩
  | cons x a' ih =>
    intro l b h
    cases l with
    | nil =>
      left
      exact ⟨x :: a', rfl⟩
    | cons y l' =>
      obtain ⟨t, ht⟩ := h
      rw [List.cons_append, List.cons_append] at ht
      injection ht with h1 h2
      subst h1
      rcases ih l' b ⟨t, h2⟩ with hl | ⟨l₂, he, hp⟩
      · left
        obtain ⟨t', ht'⟩ := hl
        exact ⟨t', by simp [ht']⟩
      · right
        exact ⟨l₂, by simp [he], hp⟩

/-- Helper: the prefixes of a two-element list. -/
theorem prefixPair {α : Type} (l : List α) (a b : α) (h : l <+: [a, b]) :
    l = [] ∨ l = [a] ∨ l = [a, b] := by
  obtain ⟨t, ht⟩ := h
  match l with
  | [] => exact Or.inl rfl
  | [y] =>
    simp at ht
    exact Or.inr (Or.inl (by simp [ht.1]))
  | [y, z] =>
    simp at ht
    exact Or.inr (Or.inr (by simp [ht.1, ht.2.1]))
  | y :: z :: w :: rest =>
    have hlen := congrArg List.length ht
    simp at hlen

/-- Helper: the remove-then-rename swap installs the temporary file's
content at the final path and deletes the temporary path. -/
theorem swapRun (fs1 : FS) (p temp : String) (hne : p ≠ temp) :
    fsRun fs1 [FsOp.remove p, FsOp.rename temp p] p = fs1 temp ∧
    fsRun fs1 [FsOp.remove p, FsOp.rename temp p] temp = none := by
  constructor
  · simp [fsRun, fsStep, hne, Ne.symm hne]
  · simp [fsRun, fsStep, Ne.symm hne]

/-- Helper: a path never equals itself extended by `.temp`. -/
theorem append_temp_ne (p : String) : p ≠ p ++ ".temp" := by
  intro h
  have hlen := congrArg String.length h
  rw [String.length_append] at hlen
  have h5 : (".temp" : String).length = 5 := by decide
  omega

/-- Claim C3 as stated is false on the code: the turn-level reply
stage's checkpoint write (`write_json_file`, used for both the periodic
and the final flush) does not write to a temporary path and rename it
over the final path — its very first operation truncates the final path
in place, so a kill mid-flush leaves a half-written file there (here:
the file holding a complete collection `[]` is left holding `""`). -/
theorem C3_counterexample :
    ¬ usesTempThenRename (Agent3.write_json_file_ops "out.json" ["[]"]) "out.json" ∧
    (Agent3.write_json_file_ops "out.json" ["[]"]).take 1 = [FsOp.truncate "out.json"] ∧
    fsRun fsC3 ((Agent3.write_json_file_ops "out.json" ["[]"]).take 1) "out.json" = some "" := by
  refine ⟨?_, rfl, ?_⟩
  · rintro ⟨temp, chunks, hne, heq⟩
    have hlen := congrArg List.length heq
    simp [Agent3.write_json_file_ops, writeFileOps] at hlen
  · simp [Agent3.write_json_file_ops, writeFileOps, fsRun, fsStep, fsC3]

/-- Claim C3, amended: the conversation-generation stage's
`save_progress` does write the full collection to the temporary path
`output_path + ".temp"` and then removes the final path and renames the
temporary over it; after the flush the final path holds the complete
serialized collection and the temporary artifact is gone, and at every
intermediate point the final path holds its previous content, is absent,
or holds the complete new collection — never a partial write.  The
turn-level reply stage's checkpoint (see the counterexample) does not
follow this discipline: it writes the final path in place. -/
theorem C3_checkpoint_swap (output_path : String) (chunks : List String) (fs : FS) :
    usesTempThenRename (Agent2.save_progress_ops output_path chunks) output_path ∧
    fsRun fs (Agent2.save_progress_ops output_path chunks) output_path =
      some (chunksJoin chunks) ∧
    fsRun fs (Agent2.save_progress_ops output_path chunks) (output_path ++ ".temp") = none ∧
    (∀ l, l <+: Agent2.save_progress_ops output_path chunks →
      fsRun fs l output_path = fs output_path ∨ fsRun fs l output_path = none ∨
      fsRun fs l output_path = some (chunksJoin chunks)) := by
  have hne : output_path ≠ output_path ++ ".temp" := append_temp_ne output_path
  have hops : Agent2.save_progress_ops output_path chunks =
      writeFileOps (output_path ++ ".temp") chunks ++
        [FsOp.remove output_path, FsOp.rename (output_path ++ ".temp") output_path] := by
    simp [Agent2.save_progress_ops, hne]
  have hfs1p : fsRun fs (writeFileOps (output_path ++ ".temp") chunks) output_path =
      fs output_path :=
    fsRun_untouched output_path _ fs
      (writeFileOps_touches output_path (output_path ++ ".temp") chunks hne)
  have hfs1t : fsRun fs (writeFileOps (output_path ++ ".temp") chunks) (output_path ++ ".temp") =
      some (chunksJoin chunks) :=
    fsRun_writeFileOps (output_path ++ ".temp") chunks fs
  have hswap := swapRun (fsRun fs (writeFileOps (output_path ++ ".temp") chunks))
    output_path (output_path ++ ".temp") hne
  refine ⟨⟨output_path ++ ".temp", chunks, Ne.symm hne, hops⟩, ?_, ?_, ?_⟩
  · rw [hops, fsRun_append, hswap.1, hfs1t]
  · rw [hops, fsRun_append, hswap.2]
  · intro l hl
    rw [hops] at hl
    rcases prefixSplit _ l _ hl with h1 | ⟨l₂, he, hp⟩
    · left
      exact fsRun_untouched output_path l fs
        (fun op hop => writeFileOps_touches output_path (output_path ++ ".temp") chunks hne op
          (h1.sublist.subset hop))
    · subst he
      rw [fsRun_append]
      rcases prefixPair l₂ _ _ hp with h2 | h2 | h2
      · subst h2
        left
        exact hfs1p
      · subst h2
        right
        left
        simp [fsRun, fsStep]
      · subst h2
        right
        right
        rw [hswap.1, hfs1t]

/-- Witness for `C3_checkpoint_swap` on a concrete flush: writing the
collection `[]` over `out.json`. -/
theorem C3_checkpoint_swap_witness :
    usesTempThenRename (Agent2.save_progress_ops "out.json" ["[]"]) "out.json" ∧
    fsRun fsC3 (Agent2.save_progress_ops "out.json" ["[]"]) "out.json" =
      some (chunksJoin ["[]"]) ∧
    fsRun fsC3 (Agent2.save_progress_ops "out.json" ["[]"]) ("out.json" ++ ".temp") = none ∧
    (fsRun fsC3 (Agent2.save_progress_ops "out.json" ["[]"]) "out.json" = fsC3 "out.json" ∨
     fsRun fsC3 (Agent2.save_progress_ops "out.json" ["[]"]) "out.json" = none ∨
     fsRun fsC3 (Agent2.save_progress_ops "out.json" ["[]"]) "out.json" =
       some (chunksJoin ["[]"])) :=
  ⟨(C3_checkpoint_swap "out.json" ["[]"] fsC3).1,
   (C3_checkpoint_swap "out.json" ["[]"] fsC3).2.1,
   (C3_checkpoint_swap "out.json" ["[]"] fsC3).2.2.1,
   (C3_checkpoint_swap "out.json" ["[]"] fsC3).2.2.2 _ ⟨[], List.append_nil _⟩⟩

/-- Claim C5 as stated is false on the code: the stage adapters do not
produce the same parse outcome as one shared lenient parser.  On the
response text `xx {"a": 1} yy` (written with braces escaped), the
theme-extraction adapter and the spec's reference chain recover the
embedded object, while the conversation-generation adapter fails into
its retry path and the filter adapter returns its reject result. -/
theorem C5_counterexample :
    Agent1.extract_round_info_data c5jparse c5text = some c5val ∧
    Agent2.parseResponse c5jparse c5text = none ∧
    specLenientParse c5jparse c5text = some c5val ∧
    Agent4.inference_with_deepseek_v3 c5jparse c5text = Agent4.rejectResult c5text ∧
    Agent2.parseResponse c5jparse c5text ≠ specLenientParse c5jparse c5text := by
  refine ⟨rfl, rfl, rfl, rfl, ?_⟩
  intro h
  rw [show Agent2.parseResponse c5jparse c5text = (none : Option Json) from rfl,
    show specLenientParse c5jparse c5text = some c5val from rfl] at h
  exact Option.noConfusion h

/-- Claim C5, amended: the adapters do not share one lenient parser.
The theme-extraction and conversation-generation adapters apply the
identical code-fence strip, and whenever the fence-stripped text parses
strictly they produce that same parsed object; but only theme-extraction
falls back to embedded-object extraction, conversation-generation fails
into its retry path, and the filter adapter uses a line-based fence
strip, validates the three required keys, and returns a reject object
instead of failing.  On a fence-free response that strictly parses and
passes the filter's key validation, all three parsing adapters agree on
the parsed object. -/
theorem C5_fence_chain :
    (∀ s, Agent1.stripFence s = Agent2.stripCodeFence s) ∧
    (∀ (jparse : String → Option Json) (s : String) (v : Json),
      jparse (Agent2.stripCodeFence s) = some v →
      Agent1.extract_round_info_data jparse s = some v ∧
      Agent2.parseResponse jparse s = some v) ∧
    (∀ (jparse : String → Option Json) (s : String) (v : Json),
      strStartsWith (pyStrip s) "```" = false →
      jparse (pyStrip s) = some v →
      Agent4.checkKeys v = some true →
      Agent4.inference_with_deepseek_v3 jparse s = v) := by
  refine ⟨fun s => rfl, ?_, ?_⟩
  · intro jparse s v h
    constructor
    · simp only [Agent1.extract_round_info_data]
      rw [show Agent1.stripFence s = Agent2.stripCodeFence s from rfl, h]
    · simp [Agent2.parseResponse, h]
  · intro jparse s v hns h hck
    simp [Agent4.inference_with_deepseek_v3, Agent4.stripMarkdownFence, hns, h, hck]

/-- Witness for `C5_fence_chain` on a concrete fence-free response
carrying a valid filter verdict. -/
theorem C5_fence_chain_witness :
    Agent1.stripFence c5textKeep = Agent2.stripCodeFence c5textKeep ∧
    Agent1.extract_round_info_data c5jparseKeep c5textKeep = some c5valKeep ∧
    Agent2.parseResponse c5jparseKeep c5textKeep = some c5valKeep ∧
    Agent4.inference_with_deepseek_v3 c5jparseKeep c5textKeep = c5valKeep :=
  ⟨C5_fence_chain.1 c5textKeep,
   (C5_fence_chain.2.1 c5jparseKeep c5textKeep c5valKeep rfl).1,
   (C5_fence_chain.2.1 c5jparseKeep c5textKeep c5valKeep rfl).2,
   C5_fence_chain.2.2 c5jparseKeep c5textKeep c5valKeep rfl rfl
     (by simp [Agent4.checkKeys, Agent4.pyIn, c5valKeep])⟩

/-- Claim C6 marks a code bug: the validation `all(k in result for k in
("keep", "issues", "reason"))` also passes when the parsed response is
not a dict but a JSON array (or string) containing the three key names,
in which case `inference_with_deepseek_v3` returns that non-dict value
instead of the documented reject dict, and `main`'s
`result["post_id"] = post_id` then raises an uncaught `TypeError`, so
the filtering stage produces no output record for that input (and
aborts), contradicting the claim and the function's own docstring.  On a
genuine parse failure the fallback behaves as documented: the reject
result with `keep = false` flows through `main`, which emits exactly one
record carrying the input's `post_id`. -/
theorem C6_filter_bug :
    Agent4.checkKeys (Json.arr [Json.str "keep", Json.str "issues", Json.str "reason"]) =
      some true ∧
    Agent4.inference_with_deepseek_v3 c6jparse c6resp =
      Json.arr [Json.str "keep", Json.str "issues", Json.str "reason"] ∧
    Agent4.mainStep c6jparse "p1" c6resp = none ∧
    Agent4.inference_with_deepseek_v3 jparseNone c6resp = Agent4.rejectResult c6resp ∧
    Agent4.mainStep jparseNone "p1" c6resp =
      some (Json.obj [("keep", Json.bool false), ("issues", Json.arr []),
        ("reason", Json.str ("Invalid model response | Raw output: " ++ c6resp)),
        ("post_id", Json.str "p1")]) := by
  have h1 : Agent4.stripMarkdownFence c6resp = c6resp := rfl
  have h2 : c6jparse c6resp =
      some (Json.arr [Json.str "keep", Json.str "issues", Json.str "reason"]) := rfl
  have hck : Agent4.checkKeys
      (Json.arr [Json.str "keep", Json.str "issues", Json.str "reason"]) = some true := by
    simp [Agent4.checkKeys, Agent4.pyIn, jsonBeq]
  have hinf : Agent4.inference_with_deepseek_v3 c6jparse c6resp =
      Json.arr [Json.str "keep", Json.str "issues", Json.str "reason"] := by
    simp [Agent4.inference_with_deepseek_v3, h1, h2, hck]
  refine ⟨hck, hinf, ?_, rfl, rfl⟩
  simp [Agent4.mainStep, hinf]

theorem lockedInv_init : lockedInv initCfg := by decide

set_option maxHeartbeats 1000000 in
set_option maxRecDepth 10000 in
/-- Helper: every step of the locked rotation preserves the
invariant. -/
theorem lockedInv_step : ∀ (t : Bool) (c : RotCfg), lockedInv c → lockedInv (stepLocked t c) := by
  decide

/-- Helper: every schedule of the locked rotation preserves the
invariant. -/
theorem lockedInv_run : ∀ (sched : List Bool) (c : RotCfg), lockedInv c →
    lockedInv (runLocked sched c) := by
  intro sched
  induction sched with
  | nil => intro c h; exact h
  | cons t rest ih =>
    intro c h
    have h1 := lockedInv_step t c h
    simpa [runLocked, List.foldl_cons] using ih (stepLocked t c) h1

/-- Claim C7 as stated is false on the code: the theme-extraction
stage's `get_client` (a multi-worker stage) accesses the shared
rotation index outside any lock, and the rotation is not equivalent to
an atomic one: under the interleaving read-read-write-write of two
workers, both calls complete, both return the client at index 0
(a duplicated selection), and the index has advanced by one instead of
two — a lost update. -/
theorem C7_counterexample :
    guarded agent1_get_client_acts = false ∧
    (runUnlocked [false, true, false, true] initCfg).pc0.val = 2 ∧
    (runUnlocked [false, true, false, true] initCfg).pc1.val = 2 ∧
    (runUnlocked [false, true, false, true] initCfg).reg0 =
      (runUnlocked [false, true, false, true] initCfg).reg1 ∧
    (runUnlocked [false, true, false, true] initCfg).idx.val ≠ 2 % 2 := by
  decide

/-- Claim C7, amended: in the turn-level reply stage the rotation's
index accesses occur only while `client_lock` is held, and (in the
two-worker, two-client instance of the rotation logic) every
interleaving in which both calls complete leaves the index advanced by
exactly the number of completed calls modulo the number of clients; the
theme-extraction stage's `get_client` instead mutates the shared index
with no lock, and admits the lost-update interleaving of the
counterexample. -/
theorem C7_rotation_guarded :
    guarded agent3_get_client_acts = true ∧
    (∀ sched : List Bool,
      (runLocked sched initCfg).pc0.val = 4 → (runLocked sched initCfg).pc1.val = 4 →
      (runLocked sched initCfg).idx.val = 2 % 2) := by
  constructor
  · decide
  · intro sched h0 h1
    have hI := lockedInv_run sched initCfg lockedInv_init
    obtain ⟨_, _, hidx, _, _⟩ := hI
    rw [h0, h1] at hidx
    simpa using hidx

/-- Witness for `C7_rotation_guarded` on a concrete serial schedule in
which both workers complete. -/
theorem C7_rotation_guarded_witness :
    guarded agent3_get_client_acts = true ∧
    (runLocked [false, false, false, false, true, true, true, true] initCfg).idx.val = 2 % 2 :=
  ⟨C7_rotation_guarded.1,
   C7_rotation_guarded.2 [false, false, false, false, true, true, true, true]
     (by decide) (by decide)⟩

/-- Helper: updating one position preserves the length. -/
theorem listUpd_length {α : Type} : ∀ (l : List α) (n : Nat) (f : α → α),
    (listUpd l n f).length = l.length := by
  intro l
  induction l with
  | nil => intro n f; rfl
  | cons x xs ih =>
    intro n f
    cases n with
    | zero => simp [listUpd]
    | succ m => simp [listUpd, ih]

/-- Helper: updating one position leaves every other position
unchanged. -/
theorem listUpd_get_ne {α : Type} : ∀ (l : List α) (n i : Nat) (f : α → α), i ≠ n →
    (listUpd l n f)[i]? = l[i]? := by
  intro l
  induction l with
  | nil => intro n i f _; rfl
  | cons x xs ih =>
    intro n i f h
    cases n with
    | zero =>
      cases i with
      | zero => exact absurd rfl h
      | succ k => simp [listUpd]
    | succ m =>
      cases i with
      | zero => simp [listUpd]
      | succ k => simpa [listUpd] using ih m k f (fun he => h (by rw [he]))

/-- Helper: updating one position applies the function there. -/
theorem listUpd_get_eq {α : Type} : ∀ (l : List α) (n : Nat) (f : α → α) (x : α),
    l[n]? = some x → (listUpd l n f)[n]? = some (f x) := by
  intro l
  induction l with
  | nil => intro n f x h; simp at h
  | cons y ys ih =>
    intro n f x h
    cases n with
    | zero =>
      simp at h
      simp [listUpd, h]
    | succ m =>
      simp at h ⊢
      simpa [listUpd] using ih m f x h

/-- Helper: an in-range `getD` agrees with the optional lookup. -/
theorem getD_some {α : Type} (l : List α) (i : Nat) (d : α) (h : i < l.length) :
    l[i]? = some (l.getD i d) := by
  rw [List.getD_eq_getElem?_getD]
  cases hx : l[i]? with
  | none => simp at hx; omega
  | some v => simp

/-- Claim C8: the turn-level reply stage schedules work only for turns
lacking a counselor response (and carrying a patient text), and a
completed task writes only the `counselor_content` and `counselor_think`
fields of its own target turn, preserving the number and order of posts
and turns, every other turn, the post identifier, and the target turn's
other fields. -/
theorem C8_turn_immutability :
    (∀ (posts : List Agent3.Post3) (i j : Nat) (p : String),
      (i, j, p) ∈ Agent3.tasks posts →
      ∃ post turn, posts[i]? = some post ∧ post.conversation[j]? = some turn ∧
        turn.counselor_content = "" ∧ turn.patient = p ∧ p ≠ "") ∧
    (∀ (posts : List Agent3.Post3) (i j : Nat) (reply think : String),
      (Agent3.applyResult posts i j reply think).length = posts.length ∧
      (∀ i', i' ≠ i → (Agent3.applyResult posts i j reply think)[i']? = posts[i']?) ∧
      (∀ post, posts[i]? = some post →
        ∃ post', (Agent3.applyResult posts i j reply think)[i]? = some post' ∧
          post'.post_id = post.post_id ∧
          post'.conversation.length = post.conversation.length ∧
          (∀ j', j' ≠ j → post'.conversation[j']? = post.conversation[j']?) ∧
          (∀ turn, post.conversation[j]? = some turn →
            post'.conversation[j]? =
              some { turn with counselor_content := reply, counselor_think := think }))) := by
  constructor
  · intro posts i j p hmem
    simp only [Agent3.tasks, List.mem_flatMap, List.mem_range, List.mem_filterMap] at hmem
    obtain ⟨i', hi', j', hj', hite⟩ := hmem
    by_cases hc : ((posts.getD i' default).conversation.getD j' default).counselor_content = "" ∧
        ((posts.getD i' default).conversation.getD j' default).patient ≠ ""
    · rw [if_pos hc] at hite
      simp only [Option.some.injEq, Prod.mk.injEq] at hite
      obtain ⟨rfl, rfl, hp⟩ := hite
      exact ⟨posts.getD i' default, (posts.getD i' default).conversation.getD j' default,
        getD_some posts i' default hi', getD_some _ j' default hj', hc.1, hp, hp ▸ hc.2⟩
    · rw [if_neg hc] at hite
      exact absurd hite (by simp)
  · intro posts i j reply think
    refine ⟨listUpd_length _ _ _, fun i' hne => listUpd_get_ne _ _ _ _ hne, ?_⟩
    intro post hpost
    exact ⟨_, listUpd_get_eq posts i _ post hpost, rfl, listUpd_length _ _ _,
      fun j' hne => listUpd_get_ne _ _ _ _ hne,
      fun turn hturn => listUpd_get_eq _ _ _ _ hturn⟩

/-- Witness for `C8_turn_immutability` on the concrete post list: the
pending second turn is scheduled, and completing it touches nothing
else. -/
theorem C8_turn_immutability_witness :
    (∃ post turn, c8Posts[0]? = some post ∧ post.conversation[1]? = some turn ∧
      turn.counselor_content = "" ∧ turn.patient = "again" ∧ ("again" : String) ≠ "") ∧
    (Agent3.applyResult c8Posts 0 1 "reply" "think").length = c8Posts.length ∧
    (∃ post', (Agent3.applyResult c8Posts 0 1 "reply" "think")[0]? = some post' ∧
      post'.post_id = ({ post_id := "p1", conversation := [
        { round := 1, patient := "hello", counselor_content := "done", counselor_think := "t1" },
        { round := 2, patient := "again", counselor_content := "", counselor_think := "" }] } :
          Agent3.Post3).post_id ∧
      post'.conversation.length = 2 ∧
      (∀ j', j' ≠ 1 → post'.conversation[j']? =
        ({ post_id := "p1", conversation := [
          { round := 1, patient := "hello", counselor_content := "done", counselor_think := "t1" },
          { round := 2, patient := "again", counselor_content := "", counselor_think := "" }] } :
            Agent3.Post3).conversation[j']?) ∧
      (∀ turn, ({ post_id := "p1", conversation := [
          { round := 1, patient := "hello", counselor_content := "done", counselor_think := "t1" },
          { round := 2, patient := "again", counselor_content := "", counselor_think := "" }] } :
            Agent3.Post3).conversation[1]? = some turn →
        post'.conversation[1]? =
          some { turn with counselor_content := "reply", counselor_think := "think" })) :=
  ⟨C8_turn_immutability.1 c8Posts 0 1 "again" (by decide),
   (C8_turn_immutability.2 c8Posts 0 1 "reply" "think").1,
   (C8_turn_immutability.2 c8Posts 0 1 "reply" "think").2.2
     { post_id := "p1", conversation := [
       { round := 1, patient := "hello", counselor_content := "done", counselor_think := "t1" },
       { round := 2, patient := "again", counselor_content := "", counselor_think := "" }] }
     (by rfl)⟩

/-- Claim C9: whenever the recovery artifact `output_path + ".temp"`
exists at load time, `load_processed_records` reads the records and the
completed-identifier set exclusively from it: the result is the same on
any two filesystems agreeing on the artifact, whatever the main output
file holds. -/
theorem C9_temp_priority :
    ∀ (jparse : String → Option Json) (fs1 fs2 : FS) (output_path tc : String),
      fs1 (output_path ++ ".temp") = some tc →
      fs2 (output_path ++ ".temp") = some tc →
      Agent2.load_processed_records jparse fs1 output_path =
        Agent2.load_processed_records jparse fs2 output_path := by
  intro jparse fs1 fs2 output_path tc h1 h2
  simp [Agent2.load_processed_records, h1, h2]

/-- Witness for `C9_temp_priority`: with the artifact holding `x`, the
load ignores the main file content `MAIN` entirely. -/
theorem C9_temp_priority_witness :
    Agent2.load_processed_records jparseNone c9fsBoth "out.json" =
      Agent2.load_processed_records jparseNone c9fsTempOnly "out.json" :=
  C9_temp_priority jparseNone c9fsBoth c9fsTempOnly "out.json" "x" rfl rfl

/-- Claim C10: in the theme-extraction stage, when the inference call
succeeds but the leniently parsed response lacks a `rounds` or an
`info_by_round` value, the worker returns having made its one Gateway
call but without writing any output line and without marking the
identifier processed — the shared state is returned unchanged, so the
record stays pending for a future run. -/
theorem C10_missing_keys_skip :
    ∀ (jparse : String → Option Json) (respond : String → Option String)
      (st : Agent1.WState) (post : Agent1.Post1) (out : String) (r i : Option Json),
      st.processed.contains post.post_id = false →
      respond (Agent1.build_prompt post.content) = some out →
      Agent1.extract_round_info jparse out = some (r, i) →
      (r = none ∨ i = none) →
      Agent1.worker jparse respond st post = (st, 1) := by
  intro jparse respond st post out r i hc hresp hext hd
  simp only [Agent1.worker, hc, hresp, hext]
  rcases hd with rfl | rfl
  · simp
  · simp

/-- Witness for `C10_missing_keys_skip`: a response that parses to the
empty JSON object has neither key, and the worker leaves the state
unchanged after its single call. -/
theorem C10_missing_keys_skip_witness :
    Agent1.worker c10jparse c10respond { outLines := [], processed := [] }
      { post_id := "p1", content := "c", file := "f" } =
      ({ outLines := [], processed := [] }, 1) :=
  C10_missing_keys_skip c10jparse c10respond { outLines := [], processed := [] }
    { post_id := "p1", content := "c", file := "f" } "\x7b\x7d" none none
    rfl rfl rfl (Or.inl rfl)
